import Mathlib

/-!
Shallow embedding of `src/src/resource_manager.rs` (the Roblox resource
reconciliation dispatcher of the mantle project).

The Rust code dispatches `create` / `update` / `delete` over a closed set of
resource-type strings.  Each branch parses an untyped YAML document into a
typed record, performs zero or more calls against the platform client
(`RobloxApi`), and returns an optional YAML outputs document.

Modelling choices:
* `serde_yaml::Value` becomes the inductive `Yaml`; the per-type serde
  deserializers become explicit parse functions returning `Except String`.
* The platform client is an oracle: a record of functions, one per API
  method, each returning `Except String <response>`.  Every manager
  operation additionally returns the ordered list of `ApiCall`s it issued,
  so that claims about which platform operations run (and in which order)
  are statements about that trace.
* Rust `panic!` (the unknown-resource-type arms) is a third outcome
  constructor, distinct from recoverable `Err`.
* `Utc::now()` formatted with `"%F %T%.f"` is injected as the string field
  `utc_now_formatted` of the manager, per the clock-capability design note.
-/

/-- An untyped structured document, standing in for `serde_yaml::Value`. -/
inductive Yaml : Type where
  | nullV : Yaml
  | boolV : Bool → Yaml
  | natV : Nat → Yaml
  | strV : String → Yaml
  | seqV : List Yaml → Yaml
  | mapV : List (String × Yaml) → Yaml

/-- Platform-assigned 64-bit identifier (`pub type AssetId = u64`).  The ids
are opaque handles: the code never does arithmetic on them, so `Nat` is a
faithful carrier. -/
abbrev AssetId := Nat

namespace resource_types

def EXPERIENCE : String := "experience"

def EXPERIENCE_CONFIGURATION : String := "experienceConfiguration"

def EXPERIENCE_ACTIVATION : String := "experienceActivation"

def EXPERIENCE_ICON : String := "experienceIcon"

def EXPERIENCE_THUMBNAIL : String := "experienceThumbnail"

def EXPERIENCE_THUMBNAIL_ORDER : String := "experienceThumbnailOrder"

def EXPERIENCE_DEVELOPER_PRODUCT : String := "experienceDeveloperProduct"

def EXPERIENCE_DEVELOPER_PRODUCT_ICON : String := "experienceDeveloperProductIcon"

def PLACE : String := "place"

def PLACE_FILE : String := "placeFile"

def PLACE_CONFIGURATION : String := "placeConfiguration"

end resource_types

/-! ### Typed input/output records (one per resource type) -/

structure ExperienceInputs where
  asset_id : Option AssetId
  deriving Repr, DecidableEq

structure ExperienceOutputs where
  asset_id : AssetId
  start_place_id : AssetId
  deriving Repr, DecidableEq

/-- Modelled from the spec: `ExperienceConfigurationModel` is defined in the
platform-client module (`roblox_api.rs`), which is not under `src/`.  The
spec describes it as "a sparse, all-optional overlay"; the field names are
taken from the construction site in the experience delete branch.  Only
`is_archived` is ever inspected by a claim, so the other fields carry their
raw document payloads. -/
structure ExperienceConfigurationModel where
  genre : Option Yaml
  playable_devices : Option Yaml
  is_friends_only : Option Yaml
  allow_private_servers : Option Yaml
  private_server_price : Option Yaml
  is_for_sale : Option Yaml
  price : Option Yaml
  studio_access_to_apis_allowed : Option Yaml
  permissions : Option Yaml
  universe_avatar_type : Option Yaml
  universe_animation_type : Option Yaml
  universe_collision_type : Option Yaml
  is_archived : Option Bool

/-- Modelled from the spec: `PlaceConfigurationModel` is defined in the
platform-client module, not under `src/`; the spec describes the
configuration models as sparse all-optional overlays, so the model keeps the
raw document. -/
structure PlaceConfigurationModel where
  raw : Yaml

structure ExperienceConfigurationInputs where
  experience_id : AssetId
  configuration : ExperienceConfigurationModel

structure ExperienceActivationInputs where
  experience_id : AssetId
  is_active : Bool
  deriving Repr, DecidableEq

structure ExperienceThumbnailInputs where
  experience_id : AssetId
  file_path : String
  file_hash : String
  deriving Repr, DecidableEq

structure ExperienceThumbnailOutputs where
  asset_id : AssetId
  deriving Repr, DecidableEq

structure ExperienceIconInputs where
  experience_id : AssetId
  file_path : String
  file_hash : String
  deriving Repr, DecidableEq

structure ExperienceIconOutputs where
  asset_id : AssetId
  deriving Repr, DecidableEq

structure ExperienceDeveloperProductIconInputs where
  experience_id : AssetId
  file_path : String
  file_hash : String
  deriving Repr, DecidableEq

structure ExperienceDeveloperProductIconOutputs where
  asset_id : AssetId
  deriving Repr, DecidableEq

structure ExperienceThumbnailOrderInputs where
  experience_id : AssetId
  asset_ids : List AssetId
  deriving Repr, DecidableEq

structure ExperienceDeveloperProductInputs where
  experience_id : AssetId
  name : String
  price : Nat
  description : String
  icon_asset_id : Option AssetId
  deriving Repr, DecidableEq

structure ExperienceDeveloperProductOutputs where
  asset_id : AssetId
  product_id : AssetId
  shop_id : AssetId
  deriving Repr, DecidableEq

structure PlaceInputs where
  experience_id : AssetId
  start_place_id : AssetId
  asset_id : Option AssetId
  is_start : Bool
  deriving Repr, DecidableEq

structure PlaceOutputs where
  asset_id : AssetId
  deriving Repr, DecidableEq

structure PlaceFileInputs where
  asset_id : AssetId
  file_path : String
  file_hash : String
  deriving Repr, DecidableEq

structure PlaceFileOutputs where
  version : Nat
  deriving Repr, DecidableEq

structure PlaceConfigurationInputs where
  asset_id : AssetId
  configuration : PlaceConfigurationModel

/-! ### Platform client responses (shapes used at the call sites) -/

structure GetExperienceResponse where
  root_place_id : AssetId
  deriving Repr, DecidableEq

structure CreateExperienceResponse where
  universe_id : AssetId
  root_place_id : AssetId
  deriving Repr, DecidableEq

structure CreatePlaceResponse where
  place_id : AssetId
  deriving Repr, DecidableEq

structure UploadImageResponse where
  target_id : AssetId
  deriving Repr, DecidableEq

structure CreateDeveloperProductResponse where
  id : AssetId
  shop_id : AssetId
  deriving Repr, DecidableEq

structure GetDeveloperProductResponse where
  product_id : AssetId
  developer_product_id : AssetId
  deriving Repr, DecidableEq

structure GetPlaceResponse where
  current_saved_version : Nat
  deriving Repr, DecidableEq

/-- One platform API invocation, with its arguments, as recorded in the
call trace of a manager operation. -/
inductive ApiCall : Type where
  | getExperience (asset_id : AssetId)
  | createExperience
  | configureExperience (experience_id : AssetId)
      (configuration : ExperienceConfigurationModel)
  | setExperienceActive (experience_id : AssetId) (is_active : Bool)
  | uploadIcon (experience_id : AssetId) (path : String)
  | uploadThumbnail (experience_id : AssetId) (path : String)
  | setExperienceThumbnailOrder (experience_id : AssetId)
      (asset_ids : List AssetId)
  | createExperienceDeveloperProductIcon (experience_id : AssetId)
      (path : String)
  | createExperienceDeveloperProduct (experience_id : AssetId) (name : String)
      (price : Nat) (description : String) (icon_asset_id : Option AssetId)
  | findExperienceDeveloperProductById (experience_id : AssetId)
      (id : AssetId)
  | updateExperienceDeveloperProduct (experience_id : AssetId)
      (developer_product_id : AssetId) (name : String) (price : Nat)
      (description : String) (icon_asset_id : Option AssetId)
  | createPlace (experience_id : AssetId)
  | uploadPlace (path : String) (asset_id : AssetId)
  | getPlace (asset_id : AssetId)
  | configurePlace (asset_id : AssetId)
      (configuration : PlaceConfigurationModel)
  | deleteExperienceThumbnail (experience_id : AssetId) (asset_id : AssetId)
  | removePlaceFromExperience (experience_id : AssetId) (place_id : AssetId)

/-- The platform client oracle: every method of `RobloxApi` used by the
resource manager, as a function of its arguments.  The environment chooses
the record; theorems quantify over it. -/
structure RobloxApi where
  get_experience : AssetId → Except String GetExperienceResponse
  create_experience : Except String CreateExperienceResponse
  configure_experience :
    AssetId → ExperienceConfigurationModel → Except String Unit
  set_experience_active : AssetId → Bool → Except String Unit
  upload_icon : AssetId → String → Except String UploadImageResponse
  upload_thumbnail : AssetId → String → Except String UploadImageResponse
  set_experience_thumbnail_order :
    AssetId → List AssetId → Except String Unit
  create_experience_developer_product_icon :
    AssetId → String → Except String AssetId
  create_experience_developer_product :
    AssetId → String → Nat → String → Option AssetId →
      Except String CreateDeveloperProductResponse
  find_experience_developer_product_by_id :
    AssetId → AssetId → Except String GetDeveloperProductResponse
  update_experience_developer_product :
    AssetId → AssetId → String → Nat → String → Option AssetId →
      Except String Unit
  create_place : AssetId → Except String CreatePlaceResponse
  upload_place : String → AssetId → Except String Unit
  get_place : AssetId → Except String GetPlaceResponse
  configure_place :
    AssetId → PlaceConfigurationModel → Except String Unit
  delete_experience_thumbnail : AssetId → AssetId → Except String Unit
  remove_place_from_experience : AssetId → AssetId → Except String Unit

/-- Result of one manager operation: Rust `Ok`, Rust `Err`, or a `panic!`
(the unknown-resource-type arms), kept distinct because a panic crosses the
error-handling boundary. -/
inductive Outcome (α : Type) : Type where
  | ok (a : α)
  | err (msg : String)
  | panicked (msg : String)
  deriving Repr, DecidableEq

/-- An operation of the reconciler: its outcome paired with the ordered
trace of platform calls it issued. -/
def ResM (α : Type) : Type := Outcome α × List ApiCall

def ResM.pure {α : Type} (a : α) : ResM α := (Outcome.ok a, [])

def ResM.bind {α β : Type} (x : ResM α) (f : α → ResM β) : ResM β :=
  match x with
  | (Outcome.ok a, t) =>
    let y := f a
    (y.1, t ++ y.2)
  | (Outcome.err e, t) => (Outcome.err e, t)
  | (Outcome.panicked m, t) => (Outcome.panicked m, t)

instance : Monad ResM where
  pure := ResM.pure
  bind := ResM.bind

/-- Issue one platform call: record it in the trace and translate the
oracle's `Except` answer to an outcome (mirrors Rust `?` on an API call). -/
def callApi {α : Type} (c : ApiCall) : Except String α → ResM α
  | Except.ok a => (Outcome.ok a, [c])
  | Except.error e => (Outcome.err e, [c])

/-- Lift a serde parse result, attaching the code's message head (mirrors
the `map_err(|e| format!(...))?` pattern). -/
def fromSerde {α : Type} (head : String) : Except String α → ResM α
  | Except.ok a => (Outcome.ok a, [])
  | Except.error e => (Outcome.err (head ++ e), [])

def inputsErrHead : String := "Failed to deserialize inputs: "

def outputsErrHead : String := "Failed to deserialize outputs: "

/-! ### The serde boundary: decoding typed records from documents

The combinators follow serde derive semantics for the shapes that occur in
the source: required fields error when missing or of the wrong kind,
`Option` fields default to `none` when missing or null, and unknown keys
are ignored (no `deny_unknown_fields` in the source). -/

def Yaml.lookupKey : List (String × Yaml) → String → Option Yaml
  | [], _ => none
  | (k, v) :: rest, key => if k = key then some v else Yaml.lookupKey rest key

def Yaml.asMap : Yaml → Except String (List (String × Yaml))
  | Yaml.mapV kvs => Except.ok kvs
  | _ => Except.error "invalid type: expected a struct"

def reqNatField (kvs : List (String × Yaml)) (key : String) :
    Except String Nat :=
  match Yaml.lookupKey kvs key with
  | some (Yaml.natV n) => Except.ok n
  | some _ => Except.error ("invalid type for field " ++ key)
  | none => Except.error ("missing field " ++ key)

def reqBoolField (kvs : List (String × Yaml)) (key : String) :
    Except String Bool :=
  match Yaml.lookupKey kvs key with
  | some (Yaml.boolV b) => Except.ok b
  | some _ => Except.error ("invalid type for field " ++ key)
  | none => Except.error ("missing field " ++ key)

def reqStrField (kvs : List (String × Yaml)) (key : String) :
    Except String String :=
  match Yaml.lookupKey kvs key with
  | some (Yaml.strV s) => Except.ok s
  | some _ => Except.error ("invalid type for field " ++ key)
  | none => Except.error ("missing field " ++ key)

def optNatField (kvs : List (String × Yaml)) (key : String) :
    Except String (Option Nat) :=
  match Yaml.lookupKey kvs key with
  | some (Yaml.natV n) => Except.ok (some n)
  | some Yaml.nullV => Except.ok none
  | some _ => Except.error ("invalid type for field " ++ key)
  | none => Except.ok none

def optBoolField (kvs : List (String × Yaml)) (key : String) :
    Except String (Option Bool) :=
  match Yaml.lookupKey kvs key with
  | some (Yaml.boolV b) => Except.ok (some b)
  | some Yaml.nullV => Except.ok none
  | some _ => Except.error ("invalid type for field " ++ key)
  | none => Except.ok none

def natListOf : List Yaml → Except String (List Nat)
  | [] => Except.ok []
  | Yaml.natV n :: rest =>
    match natListOf rest with
    | Except.ok ns => Except.ok (n :: ns)
    | Except.error e => Except.error e
  | _ :: _ => Except.error "invalid type: expected an integer"

def reqNatListField (kvs : List (String × Yaml)) (key : String) :
    Except String (List Nat) :=
  match Yaml.lookupKey kvs key with
  | some (Yaml.seqV xs) => natListOf xs
  | some _ => Except.error ("invalid type for field " ++ key)
  | none => Except.error ("missing field " ++ key)

def parseExperienceInputs (y : Yaml) : Except String ExperienceInputs := do
  let kvs ← y.asMap
  let asset_id ← optNatField kvs "assetId"
  Except.ok { asset_id }

def parseExperienceOutputs (y : Yaml) : Except String ExperienceOutputs := do
  let kvs ← y.asMap
  let asset_id ← reqNatField kvs "assetId"
  let start_place_id ← reqNatField kvs "startPlaceId"
  Except.ok { asset_id, start_place_id }

/-- Modelled from the spec: the configuration model is a sparse all-optional
overlay, so any struct document parses and every absent field is `none`. -/
def parseExperienceConfigurationModel (y : Yaml) :
    Except String ExperienceConfigurationModel := do
  let kvs ← y.asMap
  let is_archived ← optBoolField kvs "isArchived"
  Except.ok
    { genre := Yaml.lookupKey kvs "genre"
      playable_devices := Yaml.lookupKey kvs "playableDevices"
      is_friends_only := Yaml.lookupKey kvs "isFriendsOnly"
      allow_private_servers := Yaml.lookupKey kvs "allowPrivateServers"
      private_server_price := Yaml.lookupKey kvs "privateServerPrice"
      is_for_sale := Yaml.lookupKey kvs "isForSale"
      price := Yaml.lookupKey kvs "price"
      studio_access_to_apis_allowed :=
        Yaml.lookupKey kvs "studioAccessToApisAllowed"
      permissions := Yaml.lookupKey kvs "permissions"
      universe_avatar_type := Yaml.lookupKey kvs "universeAvatarType"
      universe_animation_type := Yaml.lookupKey kvs "universeAnimationType"
      universe_collision_type := Yaml.lookupKey kvs "universeCollisionType"
      is_archived }

def parseExperienceConfigurationInputs (y : Yaml) :
    Except String ExperienceConfigurationInputs := do
  let kvs ← y.asMap
  let experience_id ← reqNatField kvs "experienceId"
  match Yaml.lookupKey kvs "configuration" with
  | none => Except.error "missing field configuration"
  | some c => do
    let configuration ← parseExperienceConfigurationModel c
    Except.ok { experience_id, configuration }

def parseExperienceActivationInputs (y : Yaml) :
    Except String ExperienceActivationInputs := do
  let kvs ← y.asMap
  let experience_id ← reqNatField kvs "experienceId"
  let is_active ← reqBoolField kvs "isActive"
  Except.ok { experience_id, is_active }

def parseExperienceIconInputs (y : Yaml) :
    Except String ExperienceIconInputs := do
  let kvs ← y.asMap
  let experience_id ← reqNatField kvs "experienceId"
  let file_path ← reqStrField kvs "filePath"
  let file_hash ← reqStrField kvs "fileHash"
  Except.ok { experience_id, file_path, file_hash }

def parseExperienceThumbnailInputs (y : Yaml) :
    Except String ExperienceThumbnailInputs := do
  let kvs ← y.asMap
  let experience_id ← reqNatField kvs "experienceId"
  let file_path ← reqStrField kvs "filePath"
  let file_hash ← reqStrField kvs "fileHash"
  Except.ok { experience_id, file_path, file_hash }

def parseExperienceThumbnailOutputs (y : Yaml) :
    Except String ExperienceThumbnailOutputs := do
  let kvs ← y.asMap
  let asset_id ← reqNatField kvs "assetId"
  Except.ok { asset_id }

def parseExperienceThumbnailOrderInputs (y : Yaml) :
    Except String ExperienceThumbnailOrderInputs := do
  let kvs ← y.asMap
  let experience_id ← reqNatField kvs "experienceId"
  let asset_ids ← reqNatListField kvs "assetIds"
  Except.ok { experience_id, asset_ids }

def parseExperienceDeveloperProductIconInputs (y : Yaml) :
    Except String ExperienceDeveloperProductIconInputs := do
  let kvs ← y.asMap
  let experience_id ← reqNatField kvs "experienceId"
  let file_path ← reqStrField kvs "filePath"
  let file_hash ← reqStrField kvs "fileHash"
  Except.ok { experience_id, file_path, file_hash }

def parseExperienceDeveloperProductInputs (y : Yaml) :
    Except String ExperienceDeveloperProductInputs := do
  let kvs ← y.asMap
  let experience_id ← reqNatField kvs "experienceId"
  let name ← reqStrField kvs "name"
  let price ← reqNatField kvs "price"
  let description ← reqStrField kvs "description"
  let icon_asset_id ← optNatField kvs "iconAssetId"
  Except.ok { experience_id, name, price, description, icon_asset_id }

def parseExperienceDeveloperProductOutputs (y : Yaml) :
    Except String ExperienceDeveloperProductOutputs := do
  let kvs ← y.asMap
  let asset_id ← reqNatField kvs "assetId"
  let product_id ← reqNatField kvs "productId"
  let shop_id ← reqNatField kvs "shopId"
  Except.ok { asset_id, product_id, shop_id }

def parsePlaceInputs (y : Yaml) : Except String PlaceInputs := do
  let kvs ← y.asMap
  let experience_id ← reqNatField kvs "experienceId"
  let start_place_id ← reqNatField kvs "startPlaceId"
  let asset_id ← optNatField kvs "assetId"
  let is_start ← reqBoolField kvs "isStart"
  Except.ok { experience_id, start_place_id, asset_id, is_start }

def parsePlaceOutputs (y : Yaml) : Except String PlaceOutputs := do
  let kvs ← y.asMap
  let asset_id ← reqNatField kvs "assetId"
  Except.ok { asset_id }

def parsePlaceFileInputs (y : Yaml) : Except String PlaceFileInputs := do
  let kvs ← y.asMap
  let asset_id ← reqNatField kvs "assetId"
  let file_path ← reqStrField kvs "filePath"
  let file_hash ← reqStrField kvs "fileHash"
  Except.ok { asset_id, file_path, file_hash }

def parsePlaceConfigurationInputs (y : Yaml) :
    Except String PlaceConfigurationInputs := do
  let kvs ← y.asMap
  let asset_id ← reqNatField kvs "assetId"
  match Yaml.lookupKey kvs "configuration" with
  | none => Except.error "missing field configuration"
  | some c => Except.ok { asset_id, configuration := { raw := c } }

/-! ### Serialization of outputs records (serde camelCase) -/

def encodeExperienceOutputs (o : ExperienceOutputs) : Yaml :=
  Yaml.mapV
    [("assetId", Yaml.natV o.asset_id),
     ("startPlaceId", Yaml.natV o.start_place_id)]

def encodeExperienceIconOutputs (o : ExperienceIconOutputs) : Yaml :=
  Yaml.mapV [("assetId", Yaml.natV o.asset_id)]

def encodeExperienceThumbnailOutputs (o : ExperienceThumbnailOutputs) :
    Yaml :=
  Yaml.mapV [("assetId", Yaml.natV o.asset_id)]

def encodeExperienceDeveloperProductIconOutputs
    (o : ExperienceDeveloperProductIconOutputs) : Yaml :=
  Yaml.mapV [("assetId", Yaml.natV o.asset_id)]

def encodeExperienceDeveloperProductOutputs
    (o : ExperienceDeveloperProductOutputs) : Yaml :=
  Yaml.mapV
    [("assetId", Yaml.natV o.asset_id),
     ("productId", Yaml.natV o.product_id),
     ("shopId", Yaml.natV o.shop_id)]

def encodePlaceOutputs (o : PlaceOutputs) : Yaml :=
  Yaml.mapV [("assetId", Yaml.natV o.asset_id)]

def encodePlaceFileOutputs (o : PlaceFileOutputs) : Yaml :=
  Yaml.mapV [("version", Yaml.natV o.version)]

/-! ### The resource manager -/

/-- Resolution of a relative asset path against the project root
(`self.project_path.join(inputs.file_path)`). -/
def pathJoin (root rel : String) : String := root ++ "/" ++ rel

structure RobloxResourceManager where
  roblox_api : RobloxApi
  project_path : String
  utc_now_formatted : String

/-- The create dispatch of `impl ResourceManager for RobloxResourceManager`,
branch for branch in source order. -/
def RobloxResourceManager.create (m : RobloxResourceManager)
    (resource_type : String) (resource_inputs : Yaml) :
    ResM (Option Yaml) :=
  if resource_type = resource_types.EXPERIENCE then do
    let inputs ← fromSerde inputsErrHead
      (parseExperienceInputs resource_inputs)
    let outputs ←
      match inputs.asset_id with
      | some asset_id => do
        let r ← callApi (ApiCall.getExperience asset_id)
          (m.roblox_api.get_experience asset_id)
        pure { asset_id, start_place_id := r.root_place_id :
          ExperienceOutputs }
      | none => do
        let r ← callApi ApiCall.createExperience
          m.roblox_api.create_experience
        pure { asset_id := r.universe_id,
               start_place_id := r.root_place_id : ExperienceOutputs }
    pure (some (encodeExperienceOutputs outputs))
  else if resource_type = resource_types.EXPERIENCE_CONFIGURATION then do
    let inputs ← fromSerde inputsErrHead
      (parseExperienceConfigurationInputs resource_inputs)
    let _ ← callApi
      (ApiCall.configureExperience inputs.experience_id inputs.configuration)
      (m.roblox_api.configure_experience inputs.experience_id
        inputs.configuration)
    pure none
  else if resource_type = resource_types.EXPERIENCE_ACTIVATION then do
    let inputs ← fromSerde inputsErrHead
      (parseExperienceActivationInputs resource_inputs)
    let _ ← callApi
      (ApiCall.setExperienceActive inputs.experience_id inputs.is_active)
      (m.roblox_api.set_experience_active inputs.experience_id
        inputs.is_active)
    pure none
  else if resource_type = resource_types.EXPERIENCE_ICON then do
    let inputs ← fromSerde inputsErrHead
      (parseExperienceIconInputs resource_inputs)
    let r ← callApi
      (ApiCall.uploadIcon inputs.experience_id
        (pathJoin m.project_path inputs.file_path))
      (m.roblox_api.upload_icon inputs.experience_id
        (pathJoin m.project_path inputs.file_path))
    pure (some (encodeExperienceIconOutputs { asset_id := r.target_id }))
  else if resource_type = resource_types.EXPERIENCE_THUMBNAIL then do
    let inputs ← fromSerde inputsErrHead
      (parseExperienceThumbnailInputs resource_inputs)
    let r ← callApi
      (ApiCall.uploadThumbnail inputs.experience_id
        (pathJoin m.project_path inputs.file_path))
      (m.roblox_api.upload_thumbnail inputs.experience_id
        (pathJoin m.project_path inputs.file_path))
    pure (some (encodeExperienceThumbnailOutputs { asset_id := r.target_id }))
  else if resource_type = resource_types.EXPERIENCE_THUMBNAIL_ORDER then do
    let inputs ← fromSerde inputsErrHead
      (parseExperienceThumbnailOrderInputs resource_inputs)
    let _ ← callApi
      (ApiCall.setExperienceThumbnailOrder inputs.experience_id
        inputs.asset_ids)
      (m.roblox_api.set_experience_thumbnail_order inputs.experience_id
        inputs.asset_ids)
    pure none
  else if resource_type = resource_types.EXPERIENCE_DEVELOPER_PRODUCT_ICON
  then do
    let inputs ← fromSerde inputsErrHead
      (parseExperienceDeveloperProductIconInputs resource_inputs)
    let asset_id ← callApi
      (ApiCall.createExperienceDeveloperProductIcon inputs.experience_id
        (pathJoin m.project_path inputs.file_path))
      (m.roblox_api.create_experience_developer_product_icon
        inputs.experience_id (pathJoin m.project_path inputs.file_path))
    pure (some (encodeExperienceDeveloperProductIconOutputs { asset_id }))
  else if resource_type = resource_types.EXPERIENCE_DEVELOPER_PRODUCT then do
    let inputs ← fromSerde inputsErrHead
      (parseExperienceDeveloperProductInputs resource_inputs)
    let c ← callApi
      (ApiCall.createExperienceDeveloperProduct inputs.experience_id
        inputs.name inputs.price inputs.description inputs.icon_asset_id)
      (m.roblox_api.create_experience_developer_product inputs.experience_id
        inputs.name inputs.price inputs.description inputs.icon_asset_id)
    let g ← callApi
      (ApiCall.findExperienceDeveloperProductById inputs.experience_id c.id)
      (m.roblox_api.find_experience_developer_product_by_id
        inputs.experience_id c.id)
    pure (some (encodeExperienceDeveloperProductOutputs
      { asset_id := g.product_id, product_id := c.id,
        shop_id := c.shop_id }))
  else if resource_type = resource_types.PLACE then do
    let inputs ← fromSerde inputsErrHead (parsePlaceInputs resource_inputs)
    let outputs ←
      match inputs.is_start, inputs.asset_id with
      | false, none => do
        let r ← callApi (ApiCall.createPlace inputs.experience_id)
          (m.roblox_api.create_place inputs.experience_id)
        pure { asset_id := r.place_id : PlaceOutputs }
      | true, none =>
        pure { asset_id := inputs.start_place_id : PlaceOutputs }
      | _, some asset_id => pure { asset_id : PlaceOutputs }
    pure (some (encodePlaceOutputs outputs))
  else if resource_type = resource_types.PLACE_FILE then do
    let inputs ← fromSerde inputsErrHead
      (parsePlaceFileInputs resource_inputs)
    let _ ← callApi
      (ApiCall.uploadPlace (pathJoin m.project_path inputs.file_path)
        inputs.asset_id)
      (m.roblox_api.upload_place (pathJoin m.project_path inputs.file_path)
        inputs.asset_id)
    let r ← callApi (ApiCall.getPlace inputs.asset_id)
      (m.roblox_api.get_place inputs.asset_id)
    pure (some (encodePlaceFileOutputs
      { version := r.current_saved_version }))
  else if resource_type = resource_types.PLACE_CONFIGURATION then do
    let inputs ← fromSerde inputsErrHead
      (parsePlaceConfigurationInputs resource_inputs)
    let _ ← callApi
      (ApiCall.configurePlace inputs.asset_id inputs.configuration)
      (m.roblox_api.configure_place inputs.asset_id inputs.configuration)
    pure none
  else
    (Outcome.panicked
      ("Create not implemented for resource type: " ++ resource_type), [])

/-- The configuration pushed by the experience delete branch: every field
`None` except `is_archived: Some(true)`. -/
def archiveOnlyConfiguration : ExperienceConfigurationModel :=
  { genre := none
    playable_devices := none
    is_friends_only := none
    allow_private_servers := none
    private_server_price := none
    is_for_sale := none
    price := none
    studio_access_to_apis_allowed := none
    permissions := none
    universe_avatar_type := none
    universe_animation_type := none
    universe_collision_type := none
    is_archived := some true }

def startPlaceDeleteError : String :=
  "Cannot delete the start place of an experience. Try creating a new experience instead."

/-- The delete dispatch, branch for branch in source order.  Note that the
source has no `EXPERIENCE_ACTIVATION` arm here: that type falls through to
the catch-all panic arm. -/
def RobloxResourceManager.delete (m : RobloxResourceManager)
    (resource_type : String) (resource_inputs : Yaml)
    (resource_outputs : Yaml) : ResM Unit :=
  if resource_type = resource_types.EXPERIENCE then do
    let outputs ← fromSerde outputsErrHead
      (parseExperienceOutputs resource_outputs)
    let _ ← callApi
      (ApiCall.configureExperience outputs.asset_id archiveOnlyConfiguration)
      (m.roblox_api.configure_experience outputs.asset_id
        archiveOnlyConfiguration)
    pure ()
  else if resource_type = resource_types.EXPERIENCE_CONFIGURATION then
    pure ()
  else if resource_type = resource_types.EXPERIENCE_ICON then
    pure ()
  else if resource_type = resource_types.EXPERIENCE_THUMBNAIL then do
    let inputs ← fromSerde inputsErrHead
      (parseExperienceThumbnailInputs resource_inputs)
    let outputs ← fromSerde outputsErrHead
      (parseExperienceThumbnailOutputs resource_outputs)
    callApi
      (ApiCall.deleteExperienceThumbnail inputs.experience_id
        outputs.asset_id)
      (m.roblox_api.delete_experience_thumbnail inputs.experience_id
        outputs.asset_id)
  else if resource_type = resource_types.EXPERIENCE_THUMBNAIL_ORDER then
    pure ()
  else if resource_type = resource_types.EXPERIENCE_DEVELOPER_PRODUCT_ICON
  then
    pure ()
  else if resource_type = resource_types.EXPERIENCE_DEVELOPER_PRODUCT then do
    let inputs ← fromSerde inputsErrHead
      (parseExperienceDeveloperProductInputs resource_inputs)
    let outputs ← fromSerde outputsErrHead
      (parseExperienceDeveloperProductOutputs resource_outputs)
    callApi
      (ApiCall.updateExperienceDeveloperProduct inputs.experience_id
        outputs.asset_id
        ("zzz_DEPRECATED(" ++ m.utc_now_formatted ++ ")")
        inputs.price
        ("Name: " ++ inputs.name ++ "\nDescription:\n" ++ inputs.description)
        inputs.icon_asset_id)
      (m.roblox_api.update_experience_developer_product inputs.experience_id
        outputs.asset_id
        ("zzz_DEPRECATED(" ++ m.utc_now_formatted ++ ")")
        inputs.price
        ("Name: " ++ inputs.name ++ "\nDescription:\n" ++ inputs.description)
        inputs.icon_asset_id)
  else if resource_type = resource_types.PLACE then do
    let inputs ← fromSerde inputsErrHead (parsePlaceInputs resource_inputs)
    let outputs ← fromSerde outputsErrHead
      (parsePlaceOutputs resource_outputs)
    if inputs.is_start then
      (Outcome.err startPlaceDeleteError, [])
    else do
      let _ ← callApi
        (ApiCall.removePlaceFromExperience inputs.experience_id
          outputs.asset_id)
        (m.roblox_api.remove_place_from_experience inputs.experience_id
          outputs.asset_id)
      pure ()
  else if resource_type = resource_types.PLACE_FILE then
    pure ()
  else if resource_type = resource_types.PLACE_CONFIGURATION then
    pure ()
  else
    (Outcome.panicked
      ("Delete not implemented for resource type: " ++ resource_type), [])

/-- The update dispatch, branch for branch in source order. -/
def RobloxResourceManager.update (m : RobloxResourceManager)
    (resource_type : String) (resource_inputs : Yaml)
    (resource_outputs : Yaml) : ResM (Option Yaml) :=
  if resource_type = resource_types.EXPERIENCE then
    m.create resource_type resource_inputs
  else if resource_type = resource_types.EXPERIENCE_CONFIGURATION then
    m.create resource_type resource_inputs
  else if resource_type = resource_types.EXPERIENCE_ACTIVATION then
    m.create resource_type resource_inputs
  else if resource_type = resource_types.EXPERIENCE_ICON then
    m.create resource_type resource_inputs
  else if resource_type = resource_types.EXPERIENCE_THUMBNAIL then do
    let _ ← m.delete resource_type resource_inputs resource_outputs
    m.create resource_type resource_inputs
  else if resource_type = resource_types.EXPERIENCE_THUMBNAIL_ORDER then
    m.create resource_type resource_inputs
  else if resource_type = resource_types.PLACE then
    m.create resource_type resource_inputs
  else if resource_type = resource_types.PLACE_FILE then
    m.create resource_type resource_inputs
  else if resource_type = resource_types.PLACE_CONFIGURATION then
    m.create resource_type resource_inputs
  else if resource_type = resource_types.EXPERIENCE_DEVELOPER_PRODUCT_ICON
  then
    m.create resource_type resource_inputs
  else if resource_type = resource_types.EXPERIENCE_DEVELOPER_PRODUCT then do
    let inputs ← fromSerde inputsErrHead
      (parseExperienceDeveloperProductInputs resource_inputs)
    let outputs ← fromSerde outputsErrHead
      (parseExperienceDeveloperProductOutputs resource_outputs)
    let _ ← callApi
      (ApiCall.updateExperienceDeveloperProduct inputs.experience_id
        outputs.asset_id inputs.name inputs.price inputs.description
        inputs.icon_asset_id)
      (m.roblox_api.update_experience_developer_product inputs.experience_id
        outputs.asset_id inputs.name inputs.price inputs.description
        inputs.icon_asset_id)
    pure (some resource_outputs)
  else
    (Outcome.panicked
      ("Update not implemented for resource type: " ++ resource_type), [])

/-! ### A concrete platform oracle for witnesses and counterexamples -/

/-- A platform client in which every call succeeds with fixed, recognizable
identifiers. -/
def sampleApi : RobloxApi where
  get_experience := fun a => Except.ok { root_place_id := a + 100 }
  create_experience := Except.ok { universe_id := 11, root_place_id := 12 }
  configure_experience := fun _ _ => Except.ok ()
  set_experience_active := fun _ _ => Except.ok ()
  upload_icon := fun _ _ => Except.ok { target_id := 21 }
  upload_thumbnail := fun _ _ => Except.ok { target_id := 22 }
  set_experience_thumbnail_order := fun _ _ => Except.ok ()
  create_experience_developer_product_icon := fun _ _ => Except.ok 23
  create_experience_developer_product := fun _ _ _ _ _ =>
    Except.ok { id := 31, shop_id := 32 }
  find_experience_developer_product_by_id := fun _ i =>
    Except.ok { product_id := i + 500, developer_product_id := i }
  update_experience_developer_product := fun _ _ _ _ _ _ => Except.ok ()
  create_place := fun _ => Except.ok { place_id := 41 }
  upload_place := fun _ _ => Except.ok ()
  get_place := fun _ => Except.ok { current_saved_version := 7 }
  configure_place := fun _ _ => Except.ok ()
  delete_experience_thumbnail := fun _ _ => Except.ok ()
  remove_place_from_experience := fun _ _ => Except.ok ()

def sampleManager : RobloxResourceManager where
  roblox_api := sampleApi
  project_path := "proj"
  utc_now_formatted := "2026-10-12 00:00:00.000000"

/-! ### Concrete documents used by witnesses and counterexamples -/

def expAdoptIns : Yaml := Yaml.mapV [("assetId", Yaml.natV 5)]

def expCreateIns : Yaml := Yaml.mapV []

def expOutsDoc : Yaml :=
  Yaml.mapV [("assetId", Yaml.natV 9), ("startPlaceId", Yaml.natV 10)]

def activationIns : Yaml :=
  Yaml.mapV [("experienceId", Yaml.natV 1), ("isActive", Yaml.boolV true)]

def configurationIns : Yaml :=
  Yaml.mapV [("experienceId", Yaml.natV 1), ("configuration", Yaml.mapV [])]

def placeConfigIns : Yaml :=
  Yaml.mapV [("assetId", Yaml.natV 3), ("configuration", Yaml.mapV [])]

def placeFileIns : Yaml :=
  Yaml.mapV [("assetId", Yaml.natV 3), ("filePath", Yaml.strV "game.rbxlx"),
    ("fileHash", Yaml.strV "h")]

def devProductIconIns : Yaml :=
  Yaml.mapV [("experienceId", Yaml.natV 1), ("filePath", Yaml.strV "i.png"),
    ("fileHash", Yaml.strV "h")]

def thumbnailOrderIns : Yaml :=
  Yaml.mapV [("experienceId", Yaml.natV 1),
    ("assetIds", Yaml.seqV [Yaml.natV 2, Yaml.natV 3])]

def devProductIns : Yaml :=
  Yaml.mapV [("experienceId", Yaml.natV 1), ("name", Yaml.strV "Sword"),
    ("price", Yaml.natV 99), ("description", Yaml.strV "Sharp"),
    ("iconAssetId", Yaml.natV 23)]

def devProductOuts : Yaml :=
  Yaml.mapV [("assetId", Yaml.natV 531), ("productId", Yaml.natV 31),
    ("shopId", Yaml.natV 32)]

def placeStartIns : Yaml :=
  Yaml.mapV [("experienceId", Yaml.natV 1), ("startPlaceId", Yaml.natV 2),
    ("isStart", Yaml.boolV true)]

def placeNewIns : Yaml :=
  Yaml.mapV [("experienceId", Yaml.natV 1), ("startPlaceId", Yaml.natV 2),
    ("isStart", Yaml.boolV false)]

def placeAdoptIns : Yaml :=
  Yaml.mapV [("experienceId", Yaml.natV 1), ("startPlaceId", Yaml.natV 2),
    ("assetId", Yaml.natV 77), ("isStart", Yaml.boolV false)]

def placeOutsDoc : Yaml := Yaml.mapV [("assetId", Yaml.natV 77)]

/-! ### Computation lemmas for the operation monad -/

theorem monadBind_eq {α β : Type} (x : ResM α) (f : α → ResM β) :
    x >>= f = ResM.bind x f := rfl

theorem pure_eq {α : Type} (a : α) :
    (pure a : ResM α) = (Outcome.ok a, []) := rfl

theorem fromSerde_ok {α : Type} (h : String) (a : α) :
    fromSerde h (Except.ok a) = (Outcome.ok a, []) := rfl

theorem fromSerde_error {α : Type} (h e : String) :
    fromSerde (α := α) h (Except.error e) =
      (Outcome.err (h ++ e), []) := rfl

theorem callApi_ok {α : Type} (c : ApiCall) (a : α) :
    callApi c (Except.ok a) = (Outcome.ok a, [c]) := rfl

theorem callApi_error {α : Type} (c : ApiCall) (e : String) :
    callApi (α := α) c (Except.error e) = (Outcome.err e, [c]) := rfl

theorem bind_mk_ok {α β : Type} (a : α) (tr : List ApiCall)
    (f : α → ResM β) :
    ResM.bind (Outcome.ok a, tr) f = ((f a).1, tr ++ (f a).2) := rfl

theorem bind_mk_err {α β : Type} (e : String) (tr : List ApiCall)
    (f : α → ResM β) :
    ResM.bind (Outcome.err e, tr) f = (Outcome.err e, tr) := rfl

theorem bind_mk_panicked {α β : Type} (msg : String) (tr : List ApiCall)
    (f : α → ResM β) :
    ResM.bind (Outcome.panicked msg, tr) f = (Outcome.panicked msg, tr) := rfl

theorem bind_fst_ok {α β : Type} {x : ResM α} {f : α → ResM β} {v : β}
    (h : (ResM.bind x f).1 = Outcome.ok v) :
    ∃ a, x.1 = Outcome.ok a ∧ (f a).1 = Outcome.ok v := by
  rcases x with ⟨o, tr⟩
  cases o with
  | ok a => exact ⟨a, rfl, h⟩
  | err e => exact absurd h (by simp [ResM.bind])
  | panicked msg => exact absurd h (by simp [ResM.bind])

/-- Serialization of experience outputs round-trips through the serde
boundary. -/
theorem parse_encode_experienceOutputs (o : ExperienceOutputs) :
    parseExperienceOutputs (encodeExperienceOutputs o) = Except.ok o := rfl

/-! ### Claims -/

/-- C5: for the resource types experience, experience-configuration,
experience-activation, experience-icon, experience-thumbnail-order, place,
place-file, place-configuration, and experience-developer-product-icon,
`update(type, inputs, outputs)` is behaviorally equal to
`create(type, inputs)`: identical outcome and identical platform-call trace,
for every inputs document and every outputs document — the prior outputs are
ignored. -/
theorem update_eq_create_for_recreate_types (m : RobloxResourceManager)
    (ins outs : Yaml) :
    m.update resource_types.EXPERIENCE ins outs =
      m.create resource_types.EXPERIENCE ins ∧
    m.update resource_types.EXPERIENCE_CONFIGURATION ins outs =
      m.create resource_types.EXPERIENCE_CONFIGURATION ins ∧
    m.update resource_types.EXPERIENCE_ACTIVATION ins outs =
      m.create resource_types.EXPERIENCE_ACTIVATION ins ∧
    m.update resource_types.EXPERIENCE_ICON ins outs =
      m.create resource_types.EXPERIENCE_ICON ins ∧
    m.update resource_types.EXPERIENCE_THUMBNAIL_ORDER ins outs =
      m.create resource_types.EXPERIENCE_THUMBNAIL_ORDER ins ∧
    m.update resource_types.PLACE ins outs =
      m.create resource_types.PLACE ins ∧
    m.update resource_types.PLACE_FILE ins outs =
      m.create resource_types.PLACE_FILE ins ∧
    m.update resource_types.PLACE_CONFIGURATION ins outs =
      m.create resource_types.PLACE_CONFIGURATION ins ∧
    m.update resource_types.EXPERIENCE_DEVELOPER_PRODUCT_ICON ins outs =
      m.create resource_types.EXPERIENCE_DEVELOPER_PRODUCT_ICON ins :=
  ⟨rfl, rfl, rfl, rfl, rfl, rfl, rfl, rfl, rfl⟩

/-- C3: creating an experience whose inputs carry `asset_id = Some(X)` never
issues the platform create-experience call: the call trace is exactly one
get-experience for X, and on success the outputs document records asset id X
together with the root place id the platform reported.  With
`asset_id = None` the trace is exactly one create-experience call and the
outputs record the returned universe id and root place id. -/
theorem experience_create_adopts_or_creates (m : RobloxResourceManager)
    (ins : Yaml) :
    (∀ X, parseExperienceInputs ins = Except.ok { asset_id := some X } →
      (m.create resource_types.EXPERIENCE ins).2 =
        [ApiCall.getExperience X] ∧
      ∀ r, m.roblox_api.get_experience X = Except.ok r →
        (m.create resource_types.EXPERIENCE ins).1 =
          Outcome.ok (some (encodeExperienceOutputs
            { asset_id := X, start_place_id := r.root_place_id }))) ∧
    (parseExperienceInputs ins = Except.ok { asset_id := none } →
      (m.create resource_types.EXPERIENCE ins).2 =
        [ApiCall.createExperience] ∧
      ∀ r, m.roblox_api.create_experience = Except.ok r →
        (m.create resource_types.EXPERIENCE ins).1 =
          Outcome.ok (some (encodeExperienceOutputs
            { asset_id := r.universe_id,
              start_place_id := r.root_place_id }))) := by
  constructor
  · intro X h1
    constructor
    · rcases hr : m.roblox_api.get_experience X with e | r <;>
        simp [RobloxResourceManager.create, h1, hr, monadBind_eq,
          fromSerde_ok, callApi_ok, callApi_error, bind_mk_ok, bind_mk_err,
          pure_eq]
    · intro r hr
      simp [RobloxResourceManager.create, h1, hr, monadBind_eq,
        fromSerde_ok, callApi_ok, bind_mk_ok, pure_eq]
  · intro h1
    constructor
    · rcases hr : m.roblox_api.create_experience with e | r <;>
        simp [RobloxResourceManager.create, h1, hr, monadBind_eq,
          fromSerde_ok, callApi_ok, callApi_error, bind_mk_ok, bind_mk_err,
          pure_eq]
    · intro r hr
      simp [RobloxResourceManager.create, h1, hr, monadBind_eq,
        fromSerde_ok, callApi_ok, bind_mk_ok, pure_eq]

/-- C3 witness: at the sample oracle, adopting asset id 5 issues exactly one
get-experience call and reports root place 105, while inputs without an
asset id issue exactly one create-experience call and report universe 11
with root place 12. -/
theorem experience_create_adopts_or_creates_witness :
    ((sampleManager.create resource_types.EXPERIENCE expAdoptIns).2 =
        [ApiCall.getExperience 5] ∧
      (sampleManager.create resource_types.EXPERIENCE expAdoptIns).1 =
        Outcome.ok (some (encodeExperienceOutputs
          { asset_id := 5, start_place_id := 105 }))) ∧
    ((sampleManager.create resource_types.EXPERIENCE expCreateIns).2 =
        [ApiCall.createExperience] ∧
      (sampleManager.create resource_types.EXPERIENCE expCreateIns).1 =
        Outcome.ok (some (encodeExperienceOutputs
          { asset_id := 11, start_place_id := 12 }))) := by
  have h1 := (experience_create_adopts_or_creates sampleManager
    expAdoptIns).1 5 rfl
  have h2 := (experience_create_adopts_or_creates sampleManager
    expCreateIns).2 rfl
  exact ⟨⟨h1.1, h1.2 { root_place_id := 105 } rfl⟩,
    ⟨h2.1, h2.2 { universe_id := 11, root_place_id := 12 } rfl⟩⟩

attribute [simp] resource_types.EXPERIENCE
  resource_types.EXPERIENCE_CONFIGURATION
  resource_types.EXPERIENCE_ACTIVATION resource_types.EXPERIENCE_ICON
  resource_types.EXPERIENCE_THUMBNAIL
  resource_types.EXPERIENCE_THUMBNAIL_ORDER
  resource_types.EXPERIENCE_DEVELOPER_PRODUCT
  resource_types.EXPERIENCE_DEVELOPER_PRODUCT_ICON resource_types.PLACE
  resource_types.PLACE_FILE resource_types.PLACE_CONFIGURATION
  monadBind_eq pure_eq fromSerde_ok fromSerde_error callApi_ok
  callApi_error bind_mk_ok bind_mk_err bind_mk_panicked

/-- C4: creating a place dispatches on `(is_start, asset_id)`: with
`is_start = false` and no asset id, exactly one platform create-place call
runs and the outputs record the returned place id; with `is_start = true`
and no asset id, no platform call runs and the outputs record the
`start_place_id` from the inputs; with `asset_id = Some(X)` the supplied id
wins regardless of `is_start`: no platform call runs and the outputs record
X. -/
theorem place_create_dispatch (m : RobloxResourceManager) (ins : Yaml)
    (i : PlaceInputs) (h1 : parsePlaceInputs ins = Except.ok i) :
    (i.is_start = false → i.asset_id = none →
      (m.create resource_types.PLACE ins).2 =
        [ApiCall.createPlace i.experience_id] ∧
      ∀ r, m.roblox_api.create_place i.experience_id = Except.ok r →
        (m.create resource_types.PLACE ins).1 =
          Outcome.ok (some (encodePlaceOutputs
            { asset_id := r.place_id }))) ∧
    (i.is_start = true → i.asset_id = none →
      m.create resource_types.PLACE ins =
        (Outcome.ok (some (encodePlaceOutputs
          { asset_id := i.start_place_id })), [])) ∧
    (∀ X, i.asset_id = some X →
      m.create resource_types.PLACE ins =
        (Outcome.ok (some (encodePlaceOutputs { asset_id := X })), [])) := by
  refine ⟨?_, ?_, ?_⟩
  · intro hs ha
    constructor
    · rcases hr : m.roblox_api.create_place i.experience_id with e | r <;>
        simp +decide [RobloxResourceManager.create, h1, hs, ha, hr]
    · intro r hr
      simp +decide [RobloxResourceManager.create, h1, hs, ha, hr]
  · intro hs ha
    simp +decide [RobloxResourceManager.create, h1, hs, ha]
  · intro X ha
    rcases hb : i.is_start with _ | _ <;>
      simp +decide [RobloxResourceManager.create, h1, hb, ha]

/-- C4 witness: at the sample oracle, a non-start place without an asset id
issues one create-place call and records place 41; a start place without an
asset id records start place id 2 with no call; a place with asset id 77
records 77 with no call. -/
theorem place_create_dispatch_witness :
    ((sampleManager.create resource_types.PLACE placeNewIns).2 =
        [ApiCall.createPlace 1] ∧
      (sampleManager.create resource_types.PLACE placeNewIns).1 =
        Outcome.ok (some (encodePlaceOutputs { asset_id := 41 }))) ∧
    sampleManager.create resource_types.PLACE placeStartIns =
      (Outcome.ok (some (encodePlaceOutputs { asset_id := 2 })), []) ∧
    sampleManager.create resource_types.PLACE placeAdoptIns =
      (Outcome.ok (some (encodePlaceOutputs { asset_id := 77 })), []) := by
  have hnew := place_create_dispatch sampleManager placeNewIns
    { experience_id := 1, start_place_id := 2, asset_id := none,
      is_start := false } rfl
  have hstart := place_create_dispatch sampleManager placeStartIns
    { experience_id := 1, start_place_id := 2, asset_id := none,
      is_start := true } rfl
  have hadopt := place_create_dispatch sampleManager placeAdoptIns
    { experience_id := 1, start_place_id := 2, asset_id := some 77,
      is_start := false } rfl
  exact ⟨⟨(hnew.1 rfl rfl).1, (hnew.1 rfl rfl).2 { place_id := 41 } rfl⟩,
    hstart.2.1 rfl rfl, hadopt.2.2 77 rfl⟩

/-- C8: deleting an experience issues exactly one configure-experience call,
aimed at the asset id recorded in the outputs document, whose configuration
sets `is_archived = Some(true)` and leaves every other configuration field
`None`, so nothing besides the archived flag is touched. -/
theorem experience_delete_archive_frame (m : RobloxResourceManager)
    (ins outsY : Yaml) (o : ExperienceOutputs)
    (h : parseExperienceOutputs outsY = Except.ok o) :
    (m.delete resource_types.EXPERIENCE ins outsY).2 =
      [ApiCall.configureExperience o.asset_id archiveOnlyConfiguration] ∧
    archiveOnlyConfiguration.is_archived = some true ∧
    archiveOnlyConfiguration.genre = none ∧
    archiveOnlyConfiguration.playable_devices = none ∧
    archiveOnlyConfiguration.is_friends_only = none ∧
    archiveOnlyConfiguration.allow_private_servers = none ∧
    archiveOnlyConfiguration.private_server_price = none ∧
    archiveOnlyConfiguration.is_for_sale = none ∧
    archiveOnlyConfiguration.price = none ∧
    archiveOnlyConfiguration.studio_access_to_apis_allowed = none ∧
    archiveOnlyConfiguration.permissions = none ∧
    archiveOnlyConfiguration.universe_avatar_type = none ∧
    archiveOnlyConfiguration.universe_animation_type = none ∧
    archiveOnlyConfiguration.universe_collision_type = none := by
  refine ⟨?_, rfl, rfl, rfl, rfl, rfl, rfl, rfl, rfl, rfl, rfl, rfl, rfl,
    rfl⟩
  rcases hc : m.roblox_api.configure_experience o.asset_id
      archiveOnlyConfiguration with e | u <;>
    simp [RobloxResourceManager.delete, h, hc]

/-- C8 witness: deleting the experience recorded in `expOutsDoc` at the
sample oracle issues exactly the archive-only configure call on asset 9. -/
theorem experience_delete_archive_frame_witness :
    (sampleManager.delete resource_types.EXPERIENCE Yaml.nullV
        expOutsDoc).2 =
      [ApiCall.configureExperience 9 archiveOnlyConfiguration] ∧
    archiveOnlyConfiguration.is_archived = some true :=
  ⟨(experience_delete_archive_frame sampleManager Yaml.nullV expOutsDoc
      { asset_id := 9, start_place_id := 10 } rfl).1,
    (experience_delete_archive_frame sampleManager Yaml.nullV expOutsDoc
      { asset_id := 9, start_place_id := 10 } rfl).2.1⟩

/-- C6: updating an experience-developer-product issues exactly one platform
call, the dedicated update-product operation — never create-product — using
the asset id recorded in the previously stored outputs document together
with the name, price, description and icon id from the new inputs, and on
success returns the stored outputs document unchanged. -/
theorem developer_product_update_uses_recorded_id
    (m : RobloxResourceManager) (insY outsY : Yaml)
    (i : ExperienceDeveloperProductInputs)
    (o : ExperienceDeveloperProductOutputs)
    (hi : parseExperienceDeveloperProductInputs insY = Except.ok i)
    (ho : parseExperienceDeveloperProductOutputs outsY = Except.ok o) :
    (m.update resource_types.EXPERIENCE_DEVELOPER_PRODUCT insY outsY).2 =
      [ApiCall.updateExperienceDeveloperProduct i.experience_id o.asset_id
        i.name i.price i.description i.icon_asset_id] ∧
    (m.roblox_api.update_experience_developer_product i.experience_id
        o.asset_id i.name i.price i.description i.icon_asset_id =
        Except.ok () →
      (m.update resource_types.EXPERIENCE_DEVELOPER_PRODUCT insY
          outsY).1 = Outcome.ok (some outsY)) := by
  constructor
  · rcases hu : m.roblox_api.update_experience_developer_product
        i.experience_id o.asset_id i.name i.price i.description
        i.icon_asset_id with e | u <;>
      simp +decide [RobloxResourceManager.update, hi, ho, hu]
  · intro hu
    simp +decide [RobloxResourceManager.update, hi, ho, hu]

/-- C6 witness: at the sample oracle, updating the product stored in
`devProductOuts` with inputs `devProductIns` issues exactly one
update-product call on the recorded asset id 531 and returns the stored
outputs document unchanged. -/
theorem developer_product_update_uses_recorded_id_witness :
    (sampleManager.update resource_types.EXPERIENCE_DEVELOPER_PRODUCT
        devProductIns devProductOuts).2 =
      [ApiCall.updateExperienceDeveloperProduct 1 531 "Sword" 99 "Sharp"
        (some 23)] ∧
    (sampleManager.update resource_types.EXPERIENCE_DEVELOPER_PRODUCT
        devProductIns devProductOuts).1 =
      Outcome.ok (some devProductOuts) := by
  have h := developer_product_update_uses_recorded_id sampleManager
    devProductIns devProductOuts
    { experience_id := 1, name := "Sword", price := 99,
      description := "Sharp", icon_asset_id := some 23 }
    { asset_id := 531, product_id := 31, shop_id := 32 } rfl rfl
  exact ⟨h.1, h.2 rfl⟩

/-- C7: deleting an experience-developer-product issues exactly one platform
call and it is the update-product operation (no removal operation is ever
invoked): the new name is the literal `zzz_DEPRECATED(` followed by the
injected timestamp, the new description embeds both the original name and
the original description verbatim, and price and icon asset id pass through
unchanged from the inputs. -/
theorem developer_product_delete_deprecates (m : RobloxResourceManager)
    (insY outsY : Yaml) (i : ExperienceDeveloperProductInputs)
    (o : ExperienceDeveloperProductOutputs)
    (hi : parseExperienceDeveloperProductInputs insY = Except.ok i)
    (ho : parseExperienceDeveloperProductOutputs outsY = Except.ok o) :
    ∃ newName newDesc,
      (m.delete resource_types.EXPERIENCE_DEVELOPER_PRODUCT insY
          outsY).2 =
        [ApiCall.updateExperienceDeveloperProduct i.experience_id
          o.asset_id newName i.price newDesc i.icon_asset_id] ∧
      newName = "zzz_DEPRECATED(" ++ m.utc_now_formatted ++ ")" ∧
      (∃ a b, newDesc = a ++ i.name ++ b) ∧
      (∃ a b, newDesc = a ++ i.description ++ b) := by
  refine ⟨"zzz_DEPRECATED(" ++ m.utc_now_formatted ++ ")",
    "Name: " ++ i.name ++ "\nDescription:\n" ++ i.description,
    ?_, rfl, ?_, ?_⟩
  · rcases hu : m.roblox_api.update_experience_developer_product
        i.experience_id o.asset_id
        ("zzz_DEPRECATED(" ++ m.utc_now_formatted ++ ")") i.price
        ("Name: " ++ i.name ++ "\nDescription:\n" ++ i.description)
        i.icon_asset_id with e | u <;>
      simp +decide [RobloxResourceManager.delete, hi, ho, hu]
  · refine ⟨"Name: ", "\nDescription:\n" ++ i.description, ?_⟩
    simp [String.append_assoc]
  · refine ⟨"Name: " ++ i.name ++ "\nDescription:\n", "", ?_⟩
    simp [String.append_assoc, String.append_empty]

/-- C7 witness: at the sample oracle and clock, deleting the product stored
in `devProductOuts` issues exactly one update-product call carrying the
deprecation name and the folded description, with price 99 and icon 23
unchanged. -/
theorem developer_product_delete_deprecates_witness :
    ∃ newName newDesc,
      (sampleManager.delete resource_types.EXPERIENCE_DEVELOPER_PRODUCT
          devProductIns devProductOuts).2 =
        [ApiCall.updateExperienceDeveloperProduct 1 531 newName 99 newDesc
          (some 23)] ∧
      newName =
        "zzz_DEPRECATED(" ++ "2026-10-12 00:00:00.000000" ++ ")" ∧
      (∃ a b, newDesc = a ++ "Sword" ++ b) ∧
      (∃ a b, newDesc = a ++ "Sharp" ++ b) :=
  developer_product_delete_deprecates sampleManager devProductIns
    devProductOuts
    { experience_id := 1, name := "Sword", price := 99,
      description := "Sharp", icon_asset_id := some 23 }
    { asset_id := 531, product_id := 31, shop_id := 32 } rfl rfl

/-- C2 counterexample: with inputs that mark the place as the start place
but an outputs document that does not parse as the place outputs shape, the
code returns the outputs-deserialization error, not the guidance error — so
the guidance error is not returned "for every possible outputs document".
No platform call is made either way. -/
theorem place_delete_malformed_outputs_no_guidance :
    (sampleManager.delete resource_types.PLACE placeStartIns
        (Yaml.strV "x")).1 ≠ Outcome.err startPlaceDeleteError ∧
    (sampleManager.delete resource_types.PLACE placeStartIns
        (Yaml.strV "x")).1 =
      Outcome.err (outputsErrHead ++ "invalid type: expected a struct") := by
  exact ⟨by decide, rfl⟩

/-- C2 (amended): for inputs whose place shape has `is_start = true`, delete
of a place returns the guidance error for every outputs document that
parses as the place outputs shape (a malformed outputs document instead
fails earlier with a deserialization error), and no platform call is made
for any outputs document whatsoever. -/
theorem place_delete_start_guidance (m : RobloxResourceManager)
    (insY outsY : Yaml) (i : PlaceInputs)
    (hi : parsePlaceInputs insY = Except.ok i) (hs : i.is_start = true) :
    (∀ o, parsePlaceOutputs outsY = Except.ok o →
      m.delete resource_types.PLACE insY outsY =
        (Outcome.err startPlaceDeleteError, [])) ∧
    (m.delete resource_types.PLACE insY outsY).2 = [] := by
  constructor
  · intro o ho
    simp +decide [RobloxResourceManager.delete, hi, ho, hs]
  · rcases ho : parsePlaceOutputs outsY with e | o <;>
      simp +decide [RobloxResourceManager.delete, hi, ho, hs]

/-- C2 witness: deleting the start place described by `placeStartIns` with
the well-formed outputs `placeOutsDoc` returns exactly the guidance error
with an empty call trace. -/
theorem place_delete_start_guidance_witness :
    sampleManager.delete resource_types.PLACE placeStartIns placeOutsDoc =
      (Outcome.err startPlaceDeleteError, []) ∧
    (sampleManager.delete resource_types.PLACE placeStartIns
        placeOutsDoc).2 = [] := by
  have h := place_delete_start_guidance sampleManager placeStartIns
    placeOutsDoc
    { experience_id := 1, start_place_id := 2, asset_id := none,
      is_start := true } rfl rfl
  exact ⟨h.1 { asset_id := 77 } rfl, h.2⟩

/-- C10: in the outputs document returned by create for an
experience-developer-product, the `asset_id` field holds the product id
obtained from the post-creation re-fetch, the `product_id` field holds the
id returned by the creation call itself, and `shop_id` holds the creation
call's shop id — decoding the returned document exhibits the deliberate
crossing of the fetched id and the creation id. -/
theorem developer_product_create_crosses_ids (m : RobloxResourceManager)
    (insY : Yaml) (i : ExperienceDeveloperProductInputs)
    (c : CreateDeveloperProductResponse) (g : GetDeveloperProductResponse)
    (hi : parseExperienceDeveloperProductInputs insY = Except.ok i)
    (hc : m.roblox_api.create_experience_developer_product i.experience_id
      i.name i.price i.description i.icon_asset_id = Except.ok c)
    (hg : m.roblox_api.find_experience_developer_product_by_id
      i.experience_id c.id = Except.ok g) :
    m.create resource_types.EXPERIENCE_DEVELOPER_PRODUCT insY =
      (Outcome.ok (some (encodeExperienceDeveloperProductOutputs
        { asset_id := g.product_id, product_id := c.id,
          shop_id := c.shop_id })),
       [ApiCall.createExperienceDeveloperProduct i.experience_id i.name
          i.price i.description i.icon_asset_id,
        ApiCall.findExperienceDeveloperProductById i.experience_id c.id]) ∧
    parseExperienceDeveloperProductOutputs
        (encodeExperienceDeveloperProductOutputs
          { asset_id := g.product_id, product_id := c.id,
            shop_id := c.shop_id }) =
      Except.ok { asset_id := g.product_id, product_id := c.id,
                  shop_id := c.shop_id } := by
  constructor
  · simp +decide [RobloxResourceManager.create, hi, hc, hg]
  · rfl

/-- C10 witness: at the sample oracle the creation call reports id 31 and
shop 32, the re-fetch reports product id 531, and the returned outputs
document records `asset_id = 531`, `product_id = 31`, `shop_id = 32`. -/
theorem developer_product_create_crosses_ids_witness :
    sampleManager.create resource_types.EXPERIENCE_DEVELOPER_PRODUCT
        devProductIns =
      (Outcome.ok (some (encodeExperienceDeveloperProductOutputs
        { asset_id := 531, product_id := 31, shop_id := 32 })),
       [ApiCall.createExperienceDeveloperProduct 1 "Sword" 99 "Sharp"
          (some 23),
        ApiCall.findExperienceDeveloperProductById 1 31]) :=
  (developer_product_create_crosses_ids sampleManager devProductIns
    { experience_id := 1, name := "Sword", price := 99,
      description := "Sharp", icon_asset_id := some 23 }
    { id := 31, shop_id := 32 }
    { product_id := 531, developer_product_id := 31 } rfl rfl rfl).1

/-! ### Shape of a successful create, per resource type -/

theorem create_experience_ok_shape (m : RobloxResourceManager) (ins : Yaml)
    (v : Option Yaml)
    (h : (m.create resource_types.EXPERIENCE ins).1 = Outcome.ok v) :
    ∃ o, v = some (encodeExperienceOutputs o) := by
  rcases hp : parseExperienceInputs ins with e | i
  · simp +decide [RobloxResourceManager.create, hp] at h
  · rcases hai : i.asset_id with _ | a
    · rcases hr : m.roblox_api.create_experience with e | r
      · simp +decide [RobloxResourceManager.create, hp, hai, hr] at h
      · simp +decide [RobloxResourceManager.create, hp, hai, hr] at h
        exact ⟨_, h.symm⟩
    · rcases hr : m.roblox_api.get_experience a with e | r
      · simp +decide [RobloxResourceManager.create, hp, hai, hr] at h
      · simp +decide [RobloxResourceManager.create, hp, hai, hr] at h
        exact ⟨_, h.symm⟩

theorem create_configuration_ok_none (m : RobloxResourceManager)
    (ins : Yaml) (v : Option Yaml)
    (h : (m.create resource_types.EXPERIENCE_CONFIGURATION ins).1 =
      Outcome.ok v) :
    v = none := by
  rcases hp : parseExperienceConfigurationInputs ins with e | i
  · simp +decide [RobloxResourceManager.create, hp] at h
  · rcases hr : m.roblox_api.configure_experience i.experience_id
        i.configuration with e | u
    · simp +decide [RobloxResourceManager.create, hp, hr] at h
    · simp +decide [RobloxResourceManager.create, hp, hr] at h
      exact h.symm

theorem create_activation_ok_none (m : RobloxResourceManager)
    (ins : Yaml) (v : Option Yaml)
    (h : (m.create resource_types.EXPERIENCE_ACTIVATION ins).1 =
      Outcome.ok v) :
    v = none := by
  rcases hp : parseExperienceActivationInputs ins with e | i
  · simp +decide [RobloxResourceManager.create, hp] at h
  · rcases hr : m.roblox_api.set_experience_active i.experience_id
        i.is_active with e | u
    · simp +decide [RobloxResourceManager.create, hp, hr] at h
    · simp +decide [RobloxResourceManager.create, hp, hr] at h
      exact h.symm

theorem create_icon_ok_shape (m : RobloxResourceManager) (ins : Yaml)
    (v : Option Yaml)
    (h : (m.create resource_types.EXPERIENCE_ICON ins).1 = Outcome.ok v) :
    ∃ o, v = some (encodeExperienceIconOutputs o) := by
  rcases hp : parseExperienceIconInputs ins with e | i
  · simp +decide [RobloxResourceManager.create, hp] at h
  · rcases hr : m.roblox_api.upload_icon i.experience_id
        (pathJoin m.project_path i.file_path) with e | r
    · simp +decide [RobloxResourceManager.create, hp, hr] at h
    · simp +decide [RobloxResourceManager.create, hp, hr] at h
      exact ⟨_, h.symm⟩

theorem create_thumbnail_ok_shape (m : RobloxResourceManager) (ins : Yaml)
    (v : Option Yaml)
    (h : (m.create resource_types.EXPERIENCE_THUMBNAIL ins).1 =
      Outcome.ok v) :
    ∃ o, v = some (encodeExperienceThumbnailOutputs o) := by
  rcases hp : parseExperienceThumbnailInputs ins with e | i
  · simp +decide [RobloxResourceManager.create, hp] at h
  · rcases hr : m.roblox_api.upload_thumbnail i.experience_id
        (pathJoin m.project_path i.file_path) with e | r
    · simp +decide [RobloxResourceManager.create, hp, hr] at h
    · simp +decide [RobloxResourceManager.create, hp, hr] at h
      exact ⟨_, h.symm⟩

theorem create_thumbnail_order_ok_none (m : RobloxResourceManager)
    (ins : Yaml) (v : Option Yaml)
    (h : (m.create resource_types.EXPERIENCE_THUMBNAIL_ORDER ins).1 =
      Outcome.ok v) :
    v = none := by
  rcases hp : parseExperienceThumbnailOrderInputs ins with e | i
  · simp +decide [RobloxResourceManager.create, hp] at h
  · rcases hr : m.roblox_api.set_experience_thumbnail_order i.experience_id
        i.asset_ids with e | u
    · simp +decide [RobloxResourceManager.create, hp, hr] at h
    · simp +decide [RobloxResourceManager.create, hp, hr] at h
      exact h.symm

theorem create_devproduct_icon_ok_shape (m : RobloxResourceManager)
    (ins : Yaml) (v : Option Yaml)
    (h : (m.create
        resource_types.EXPERIENCE_DEVELOPER_PRODUCT_ICON ins).1 =
      Outcome.ok v) :
    ∃ o, v = some (encodeExperienceDeveloperProductIconOutputs o) := by
  rcases hp : parseExperienceDeveloperProductIconInputs ins with e | i
  · simp +decide [RobloxResourceManager.create, hp] at h
  · rcases hr : m.roblox_api.create_experience_developer_product_icon
        i.experience_id (pathJoin m.project_path i.file_path) with e | a
    · simp +decide [RobloxResourceManager.create, hp, hr] at h
    · simp +decide [RobloxResourceManager.create, hp, hr] at h
      exact ⟨_, h.symm⟩

theorem create_devproduct_ok_shape (m : RobloxResourceManager) (ins : Yaml)
    (v : Option Yaml)
    (h : (m.create resource_types.EXPERIENCE_DEVELOPER_PRODUCT ins).1 =
      Outcome.ok v) :
    ∃ o, v = some (encodeExperienceDeveloperProductOutputs o) := by
  rcases hp : parseExperienceDeveloperProductInputs ins with e | i
  · simp +decide [RobloxResourceManager.create, hp] at h
  · rcases hc : m.roblox_api.create_experience_developer_product
        i.experience_id i.name i.price i.description i.icon_asset_id
        with e | c
    · simp +decide [RobloxResourceManager.create, hp, hc] at h
    · rcases hg : m.roblox_api.find_experience_developer_product_by_id
          i.experience_id c.id with e | g
      · simp +decide [RobloxResourceManager.create, hp, hc, hg] at h
      · simp +decide [RobloxResourceManager.create, hp, hc, hg] at h
        exact ⟨_, h.symm⟩

theorem create_place_ok_shape (m : RobloxResourceManager) (ins : Yaml)
    (v : Option Yaml)
    (h : (m.create resource_types.PLACE ins).1 = Outcome.ok v) :
    ∃ o, v = some (encodePlaceOutputs o) := by
  rcases hp : parsePlaceInputs ins with e | i
  · simp +decide [RobloxResourceManager.create, hp] at h
  · rcases hai : i.asset_id with _ | a
    · rcases hb : i.is_start with _ | _
      · rcases hr : m.roblox_api.create_place i.experience_id with e | r
        · simp +decide [RobloxResourceManager.create, hp, hai, hb, hr] at h
        · simp +decide [RobloxResourceManager.create, hp, hai, hb, hr] at h
          exact ⟨_, h.symm⟩
      · simp +decide [RobloxResourceManager.create, hp, hai, hb] at h
        exact ⟨_, h.symm⟩
    · rcases hb : i.is_start with _ | _ <;>
        simp +decide [RobloxResourceManager.create, hp, hai, hb] at h <;>
        exact ⟨_, h.symm⟩

theorem create_place_file_ok_shape (m : RobloxResourceManager) (ins : Yaml)
    (v : Option Yaml)
    (h : (m.create resource_types.PLACE_FILE ins).1 = Outcome.ok v) :
    ∃ o, v = some (encodePlaceFileOutputs o) := by
  rcases hp : parsePlaceFileInputs ins with e | i
  · simp +decide [RobloxResourceManager.create, hp] at h
  · rcases hu : m.roblox_api.upload_place
        (pathJoin m.project_path i.file_path) i.asset_id with e | u
    · simp +decide [RobloxResourceManager.create, hp, hu] at h
    · rcases hg : m.roblox_api.get_place i.asset_id with e | r
      · simp +decide [RobloxResourceManager.create, hp, hu, hg] at h
      · simp +decide [RobloxResourceManager.create, hp, hu, hg] at h
        exact ⟨_, h.symm⟩

theorem create_place_configuration_ok_none (m : RobloxResourceManager)
    (ins : Yaml) (v : Option Yaml)
    (h : (m.create resource_types.PLACE_CONFIGURATION ins).1 =
      Outcome.ok v) :
    v = none := by
  rcases hp : parsePlaceConfigurationInputs ins with e | i
  · simp +decide [RobloxResourceManager.create, hp] at h
  · rcases hr : m.roblox_api.configure_place i.asset_id i.configuration
        with e | u
    · simp +decide [RobloxResourceManager.create, hp, hr] at h
    · simp +decide [RobloxResourceManager.create, hp, hr] at h
      exact h.symm

/-- C9 counterexample: update of an experience-configuration with
well-formed inputs succeeds with `Ok(None)` — a declared type whose
successful update does not return an outputs document, contradicting the
claim that no declared type's update returns `Ok(None)`. -/
theorem configuration_update_returns_ok_none :
    (sampleManager.update resource_types.EXPERIENCE_CONFIGURATION
        configurationIns Yaml.nullV).1 = Outcome.ok none ∧
    (none : Option Yaml).isSome = false := ⟨rfl, rfl⟩

/-- C9 (amended): a successful update returns `Some(outputs)` exactly for
the types whose create produces an outputs document — experience,
experience-icon, experience-thumbnail, experience-developer-product-icon,
experience-developer-product, place, and place-file; for
experience-configuration, experience-activation,
experience-thumbnail-order, and place-configuration a successful update
returns `Ok(None)` (their update still performs the reconfiguration work
by forwarding to create; it is not a no-op). -/
theorem update_outputs_presence (m : RobloxResourceManager)
    (ins outs : Yaml) :
    (∀ v, (m.update resource_types.EXPERIENCE ins outs).1 =
      Outcome.ok v → v.isSome = true) ∧
    (∀ v, (m.update resource_types.EXPERIENCE_CONFIGURATION ins outs).1 =
      Outcome.ok v → v = none) ∧
    (∀ v, (m.update resource_types.EXPERIENCE_ACTIVATION ins outs).1 =
      Outcome.ok v → v = none) ∧
    (∀ v, (m.update resource_types.EXPERIENCE_ICON ins outs).1 =
      Outcome.ok v → v.isSome = true) ∧
    (∀ v, (m.update resource_types.EXPERIENCE_THUMBNAIL ins outs).1 =
      Outcome.ok v → v.isSome = true) ∧
    (∀ v, (m.update resource_types.EXPERIENCE_THUMBNAIL_ORDER ins
      outs).1 = Outcome.ok v → v = none) ∧
    (∀ v, (m.update resource_types.EXPERIENCE_DEVELOPER_PRODUCT_ICON ins
      outs).1 = Outcome.ok v → v.isSome = true) ∧
    (∀ v, (m.update resource_types.EXPERIENCE_DEVELOPER_PRODUCT ins
      outs).1 = Outcome.ok v → v.isSome = true) ∧
    (∀ v, (m.update resource_types.PLACE ins outs).1 =
      Outcome.ok v → v.isSome = true) ∧
    (∀ v, (m.update resource_types.PLACE_FILE ins outs).1 =
      Outcome.ok v → v.isSome = true) ∧
    (∀ v, (m.update resource_types.PLACE_CONFIGURATION ins outs).1 =
      Outcome.ok v → v = none) := by
  refine ⟨?_, ?_, ?_, ?_, ?_, ?_, ?_, ?_, ?_, ?_, ?_⟩
  · intro v h
    obtain ⟨o, rfl⟩ := create_experience_ok_shape m ins v h
    rfl
  · intro v h
    exact create_configuration_ok_none m ins v h
  · intro v h
    exact create_activation_ok_none m ins v h
  · intro v h
    obtain ⟨o, rfl⟩ := create_icon_ok_shape m ins v h
    rfl
  · intro v h
    have h2 : (ResM.bind
        (m.delete resource_types.EXPERIENCE_THUMBNAIL ins outs)
        (fun _ => m.create resource_types.EXPERIENCE_THUMBNAIL ins)).1 =
        Outcome.ok v := h
    obtain ⟨a, hd, hc⟩ := bind_fst_ok h2
    obtain ⟨o, rfl⟩ := create_thumbnail_ok_shape m ins v hc
    rfl
  · intro v h
    exact create_thumbnail_order_ok_none m ins v h
  · intro v h
    obtain ⟨o, rfl⟩ := create_devproduct_icon_ok_shape m ins v h
    rfl
  · intro v h
    rcases hp : parseExperienceDeveloperProductInputs ins with e | i
    · simp +decide [RobloxResourceManager.update, hp] at h
    · rcases ho : parseExperienceDeveloperProductOutputs outs with e | o
      · simp +decide [RobloxResourceManager.update, hp, ho] at h
      · rcases hu : m.roblox_api.update_experience_developer_product
            i.experience_id o.asset_id i.name i.price i.description
            i.icon_asset_id with e | u
        · simp +decide [RobloxResourceManager.update, hp, ho, hu] at h
        · simp +decide [RobloxResourceManager.update, hp, ho, hu] at h
          exact h ▸ rfl
  · intro v h
    obtain ⟨o, rfl⟩ := create_place_ok_shape m ins v h
    rfl
  · intro v h
    obtain ⟨o, rfl⟩ := create_place_file_ok_shape m ins v h
    rfl
  · intro v h
    exact create_place_configuration_ok_none m ins v h

/-- C9 witness: at the sample oracle, update of the experience described by
`expAdoptIns` succeeds and the returned document is `Some` as the amended
claim requires. -/
theorem update_outputs_presence_witness :
    (some (encodeExperienceOutputs
      { asset_id := 5, start_place_id := 105 })).isSome = true ∧
    (sampleManager.update resource_types.EXPERIENCE expAdoptIns
        Yaml.nullV).1 =
      Outcome.ok (some (encodeExperienceOutputs
        { asset_id := 5, start_place_id := 105 })) :=
  ⟨(update_outputs_presence sampleManager expAdoptIns Yaml.nullV).1 _ rfl,
    rfl⟩

/-- C1 counterexample: experience-activation is in the claim's list, its
create with well-formed inputs succeeds (returning no outputs document),
yet delete for experience-activation panics: the delete dispatch has no arm
for that declared type, so it falls into the catch-all panic arm. -/
theorem experience_activation_delete_panics :
    (sampleManager.create resource_types.EXPERIENCE_ACTIVATION
        activationIns).1 = Outcome.ok none ∧
    (sampleManager.delete resource_types.EXPERIENCE_ACTIVATION
        activationIns Yaml.nullV).1 =
      Outcome.panicked
        "Delete not implemented for resource type: experienceActivation" :=
  ⟨rfl, rfl⟩

/-- C1 (amended): for the no-op and archive delete paths that the delete
dispatch actually implements — experience, experience-configuration,
place-configuration, place-file, experience-developer-product-icon, and
experience-thumbnail-order, i.e. the claim's list without
experience-activation, whose delete panics — create with well-formed
inputs followed immediately by delete on the outputs create returned
yields Ok from delete (the platform configure call being available for the
archive path), and delete never panics for these types on any outputs
document. -/
theorem create_then_delete_ok (m : RobloxResourceManager) (t : String)
    (ins : Yaml) (o : Option Yaml)
    (ht : t = resource_types.EXPERIENCE ∨
      t = resource_types.EXPERIENCE_CONFIGURATION ∨
      t = resource_types.PLACE_CONFIGURATION ∨
      t = resource_types.PLACE_FILE ∨
      t = resource_types.EXPERIENCE_DEVELOPER_PRODUCT_ICON ∨
      t = resource_types.EXPERIENCE_THUMBNAIL_ORDER)
    (hconf : ∀ a c, m.roblox_api.configure_experience a c = Except.ok ())
    (hcreate : (m.create t ins).1 = Outcome.ok o) :
    (m.delete t ins (o.getD Yaml.nullV)).1 = Outcome.ok () ∧
    ∀ outsY msg, (m.delete t ins outsY).1 ≠ Outcome.panicked msg := by
  rcases ht with rfl | rfl | rfl | rfl | rfl | rfl
  · constructor
    · obtain ⟨o2, rfl⟩ := create_experience_ok_shape m ins o hcreate
      simp +decide [RobloxResourceManager.delete, Option.getD,
        parse_encode_experienceOutputs, hconf]
    · intro outsY msg
      rcases ho : parseExperienceOutputs outsY with e | o2
      · simp +decide [RobloxResourceManager.delete, ho]
      · simp +decide [RobloxResourceManager.delete, ho, hconf]
  · exact ⟨rfl, fun outsY msg => by
      simp +decide [RobloxResourceManager.delete]⟩
  · exact ⟨rfl, fun outsY msg => by
      simp +decide [RobloxResourceManager.delete]⟩
  · exact ⟨rfl, fun outsY msg => by
      simp +decide [RobloxResourceManager.delete]⟩
  · exact ⟨rfl, fun outsY msg => by
      simp +decide [RobloxResourceManager.delete]⟩
  · exact ⟨rfl, fun outsY msg => by
      simp +decide [RobloxResourceManager.delete]⟩

/-- C1 witness: at the sample oracle, after creating (adopting) experience
5 the immediate delete of the returned outputs succeeds, and the
experience delete path never panics. -/
theorem create_then_delete_ok_witness :
    (sampleManager.delete resource_types.EXPERIENCE expAdoptIns
      ((some (encodeExperienceOutputs
        { asset_id := 5, start_place_id := 105 })).getD Yaml.nullV)).1 =
      Outcome.ok () ∧
    ∀ outsY msg,
      (sampleManager.delete resource_types.EXPERIENCE expAdoptIns
        outsY).1 ≠ Outcome.panicked msg :=
  create_then_delete_ok sampleManager resource_types.EXPERIENCE expAdoptIns
    (some (encodeExperienceOutputs { asset_id := 5, start_place_id := 105 }))
    (Or.inl rfl) (fun _ _ => rfl) rfl
